import Mathlib

/-!
Verification of the spectrum-sweep engine of the QS-UV-K1 custom firmware
(`src/App/app/spectrum.c`).  The C module's global mutable state is embedded
as an explicit `Spec` structure; each C function becomes a Lean function from
`Spec` to `Spec`, with hardware reads (RSSI samples, the tail-detector
interrupt, register polls) passed in as explicit oracle parameters.
Machine integers are modelled as `Nat`/`Int` with explicit `% 65536`
reductions where the C code performs `uint16_t` conversions.
-/

set_option maxRecDepth 100000
set_option maxHeartbeats 2000000

namespace Spectrum

/-- `RSSI_MAX_VALUE` from spectrum.c: maximum 16-bit RSSI, also the
"already measured / blacklisted" sentinel in `rssiHistory`. -/
def RSSI_MAX_VALUE : Nat := 65535

/-- `SPECTRUM_MAX_STEPS` from spectrum.c: size of `rssiHistory`. -/
def SPECTRUM_MAX_STEPS : Nat := 128

/-- `WATERFALL_HISTORY_DEPTH` from spectrum.c. -/
def WATERFALL_HISTORY_DEPTH : Nat := 16

/-- C `clamp` helper from spectrum.c:
`v <= min ? min : (v >= max ? max : v)`. -/
def cclamp (v lo hi : Int) : Int :=
  if v ≤ lo then lo else if v ≥ hi then hi else v

/-- C conversion of an `int` value to `uint16_t`: reduction mod 2^16. -/
def toU16 (v : Int) : Nat := (v % 65536).toNat

/-- C conversion of a `uint16_t` value to `int16_t` (two's complement). -/
def toInt16 (n : Nat) : Int := (((n + 32768) % 65536 : Nat) : Int) - 32768

/-- `Rssi2DBm` from spectrum.c: `(rssi / 2) - 160 + dBmCorrTable[gRxVfo->Band]`.
The per-band correction table entry is the external parameter `corr`. -/
def Rssi2DBm (corr : Int) (rssi : Nat) : Int :=
  ((rssi / 2 : Nat) : Int) - 160 + corr

/-- `dbm2rssi` from spectrum.c:
`(dBm + 160 - dBmCorrTable[gRxVfo->Band]) * 2`, returned as `uint16_t`. -/
def dbm2rssi (corr dBm : Int) : Nat := toU16 ((dBm + 160 - corr) * 2)

/-- `PeakInfo` (globals `peak.*` of spectrum.c; the struct declaration lives
in the out-of-tree header, field widths as used by spectrum.c). -/
structure PeakInfo where
  f : Nat
  rssi : Nat
  i : Nat
  t : Nat
deriving DecidableEq

/-- `ScanInfo` (global `scanInfo` of spectrum.c). -/
structure ScanInfo where
  rssi : Nat
  rssiMin : Nat
  rssiMax : Nat
  iPeak : Nat
  fPeak : Nat
  i : Nat
  f : Nat
  scanStep : Nat
  measurementsCount : Nat
deriving DecidableEq

/-- The fields of `SpectrumSettings` the verified code paths touch.
`rssiTriggerLevel` is a `uint16_t` (sentinel `RSSI_MAX_VALUE`),
`dbMin`/`dbMax` are signed dBm bounds. -/
structure SpectrumSettings where
  rssiTriggerLevel : Nat
  dbMin : Int
  dbMax : Int
deriving DecidableEq

/-- The mode the state machine is in (`State currentState` in spectrum.c). -/
inductive EngineState where
  | SPECTRUM
  | STILL
  | FREQ_INPUT
deriving DecidableEq

/-- The global mutable state of spectrum.c that the verified paths read or
write.  `corr` is the external per-band dBm correction table entry
(`dBmCorrTable[gRxVfo->Band]`), constant during a sweep. -/
structure Spec where
  settings : SpectrumSettings
  peak : PeakInfo
  scanInfo : ScanInfo
  rssiHistory : List Nat
  waterfallHistory : List (List Nat)
  waterfallIndex : Nat
  isListening : Bool
  monitorMode : Bool
  currentState : EngineState
  fMeasure : Nat
  listenT : Nat
  newScanStart : Bool
  preventKeypress : Bool
  redrawScreen : Bool
  scanWfCounter : Nat
  listenWfCounter : Nat
  corr : Int
deriving DecidableEq

/-- `SetF` from spectrum.c (the state it keeps: `fMeasure = f`; the BK4819
register writes have no further modelled effect). -/
def SetF (f : Nat) (s : Spec) : Spec := { s with fMeasure := f }

/-- `IsPeakOverLevel` from spectrum.c: `peak.rssi >= settings.rssiTriggerLevel`. -/
def IsPeakOverLevel (s : Spec) : Bool :=
  decide (s.peak.rssi ≥ s.settings.rssiTriggerLevel)

/-- `ResetScanStats` from spectrum.c. -/
def ResetScanStats (s : Spec) : Spec :=
  { s with scanInfo := { s.scanInfo with rssi := 0, rssiMax := 0, iPeak := 0, fPeak := 0 } }

/-- `ToggleRX` from spectrum.c (N7SIX spectrum build): early-returns when the
listening flag already equals `on`; on turn-on arms the listen timer to 20.
Audio/register side effects carry no modelled state. -/
def ToggleRX (enable : Bool) (s : Spec) : Spec :=
  if s.isListening = enable then s
  else if enable then { s with isListening := enable, listenT := 20 }
  else { s with isListening := enable }

/-- `TuneToPeak` from spectrum.c: copies the held peak into `scanInfo` and
tunes the front end to the peak frequency. -/
def TuneToPeak (s : Spec) : Spec :=
  SetF s.peak.f
    { s with scanInfo := { s.scanInfo with f := s.peak.f, rssi := s.peak.rssi, i := s.peak.i } }

/-- `ClampRssiTriggerLevel` from spectrum.c:
`clamp(rssiTriggerLevel, dbm2rssi(dbMin), dbm2rssi(dbMax))`. -/
def ClampRssiTriggerLevel (s : Spec) : Spec :=
  { s with settings := { s.settings with rssiTriggerLevel :=
      (cclamp (s.settings.rssiTriggerLevel : Int)
        ((dbm2rssi s.corr s.settings.dbMin : Nat) : Int)
        ((dbm2rssi s.corr s.settings.dbMax : Nat) : Int)).toNat } }

/-- The trigger-level computation of `AutoTriggerLevel` from spectrum.c,
as a function of the two state cells it reads: the current
`settings.rssiTriggerLevel` (`trig`) and `scanInfo.rssiMax`.
Sentinel branch: arm to `rssiMax + 20` (as `uint16_t`), clamped to
`[0, RSSI_MAX_VALUE]`.  Otherwise ramp the trigger towards `newTrigger`
(which is `clamp(rssiMax+8,0,65535)` raised to the minimum `rssiMax+15`,
both as `uint16_t`) by a step of 1, 2 or 3 depending on the gap, never
moving past `newTrigger`, and only moving down when the target is more than
4 below the current trigger. -/
def rampStep (diff : Int) : Nat :=
  if diff > 6 then 3 else if diff > 3 then 2 else 1

/-- The ramp target of `AutoTriggerLevel`'s non-sentinel branch:
`newTrigger = clamp(rssiMax + 8, 0, RSSI_MAX_VALUE)` raised to the minimum
`MIN_TRIGGER = rssiMax + 15` (a `uint16_t`). -/
def triggerTarget (rssiMax : Nat) : Nat :=
  let newTrigger0 : Nat := (cclamp ((rssiMax : Int) + 8) 0 (RSSI_MAX_VALUE : Int)).toNat
  let minTrigger : Nat := toU16 ((rssiMax : Int) + 15)
  if newTrigger0 < minTrigger then minTrigger else newTrigger0

def autoTriggerCompute (trig rssiMax : Nat) : Nat :=
  if trig = RSSI_MAX_VALUE then
    (cclamp ((toU16 ((rssiMax : Int) + 20) : Nat) : Int) 0 (RSSI_MAX_VALUE : Int)).toNat
  else
    let newTrigger : Nat := triggerTarget rssiMax
    if newTrigger > trig then
      let trig2 : Nat := (trig + rampStep (toInt16 newTrigger - toInt16 trig)) % 65536
      if trig2 > newTrigger then newTrigger else trig2
    else if (newTrigger : Int) < (trig : Int) - 4 then
      let trig2 : Nat := (trig + 65536 - rampStep (toInt16 trig - toInt16 newTrigger)) % 65536
      if trig2 < newTrigger then newTrigger else trig2
    else trig

/-- `AutoTriggerLevel` from spectrum.c: it reads `settings.rssiTriggerLevel`
and `scanInfo.rssiMax` and stores the recomputed trigger level
(`autoTriggerCompute`); no other state is touched. -/
def AutoTriggerLevel (s : Spec) : Spec :=
  { s with settings :=
      { s.settings with rssiTriggerLevel :=
          autoTriggerCompute s.settings.rssiTriggerLevel s.scanInfo.rssiMax } }

/-- `UpdatePeakInfoForce` from spectrum.c: reset peak age, copy the sweep
maximum into the held peak, then recompute the trigger. -/
def UpdatePeakInfoForce (s : Spec) : Spec :=
  AutoTriggerLevel
    { s with peak := { f := s.scanInfo.fPeak, rssi := s.scanInfo.rssiMax,
                       i := s.scanInfo.iPeak, t := 0 } }

/-- `UpdatePeakInfo` from spectrum.c: force-refresh on uninitialized peak,
age timeout, or a strictly stronger sweep maximum; otherwise age the peak. -/
def UpdatePeakInfo (s : Spec) : Spec :=
  if s.peak.f = 0 ∨ s.peak.t ≥ 1024 ∨ s.peak.rssi < s.scanInfo.rssiMax then
    UpdatePeakInfoForce s
  else
    { s with peak := { s.peak with t := s.peak.t + 1 } }

/-- The polling loop of `GetRssi` from spectrum.c:
`while ((BK4819_ReadRegister(0x63) & 0b11111111) >= 255) SYSTICK_DelayUs(100);`.
`reads k` is the k-th read of register 0x63; the result is the index of the
read on which the loop exits, or `none` if it has not exited within `fuel`
iterations.  The loop itself has no timeout of its own. -/
def getRssiPoll (reads : Nat → Nat) : Nat → Nat → Option Nat
  | _, 0 => none
  | k, fuel + 1 =>
    if reads k % 256 ≥ 255 then getRssiPoll reads (k + 1) fuel else some k

/-- `SetRssiHistory` from spectrum.c, non-scan-ranges path:
`rssiHistory[idx] = rssi` (an out-of-range `idx` leaves the modelled array
unchanged; in C it is an out-of-bounds write). -/
def SetRssiHistory (idx rssi : Nat) (s : Spec) : Spec :=
  { s with rssiHistory := s.rssiHistory.set idx rssi }

/-- `Measure` from spectrum.c: `scanInfo.rssi = GetRssi()` then
`SetRssiHistory(scanInfo.i, rssi)`.  The hardware RSSI read is the oracle
parameter `sample`. -/
def Measure (sample : Nat) (s : Spec) : Spec :=
  SetRssiHistory s.scanInfo.i sample { s with scanInfo := { s.scanInfo with rssi := sample } }

/-- `UpdateScanInfo` from spectrum.c: track sweep max (with its frequency and
index) and sweep min; a new minimum also refreshes `settings.dbMin`. -/
def UpdateScanInfo (s : Spec) : Spec :=
  let s1 :=
    if s.scanInfo.rssi > s.scanInfo.rssiMax then
      { s with scanInfo :=
          { s.scanInfo with rssiMax := s.scanInfo.rssi, fPeak := s.scanInfo.f, iPeak := s.scanInfo.i } }
    else s
  if s1.scanInfo.rssi < s1.scanInfo.rssiMin then
    { s1 with scanInfo := { s1.scanInfo with rssiMin := s1.scanInfo.rssi },
              settings := { s1.settings with dbMin := Rssi2DBm s1.corr s1.scanInfo.rssi } }
  else s1

/-- `Scan` from spectrum.c: unless the bin holds the skip sentinel, tune,
measure one sample and update the sweep statistics.  The guard reads
`rssiHistory[scanInfo.i]` before any bound on `i` is checked; the model reads
a default 0 out of range (in C this is an out-of-bounds read). -/
def Scan (sample : Nat) (s : Spec) : Spec :=
  if s.rssiHistory.getD s.scanInfo.i 0 ≠ RSSI_MAX_VALUE then
    UpdateScanInfo (Measure sample (SetF s.scanInfo.f s))
  else s

/-- `NextScanStep` from spectrum.c: `++peak.t; ++scanInfo.i;
scanInfo.f += scanInfo.scanStep;`. -/
def NextScanStep (s : Spec) : Spec :=
  { s with peak := { s.peak with t := s.peak.t + 1 },
           scanInfo :=
             { s.scanInfo with i := s.scanInfo.i + 1, f := s.scanInfo.f + s.scanInfo.scanStep } }

/-- `wfStats`: the first loop of `UpdateWaterfall` in spectrum.c, computing
`(minRssi, maxRssi, validSamples)` over bins that are neither the skip
sentinel nor zero, starting from `(65535, 0, 0)`. -/
def wfStatsGo : List Nat → Nat → Nat → Nat → Nat × Nat × Nat
  | [], mn, mx, vs => (mn, mx, vs)
  | r :: t, mn, mx, vs =>
    if r ≠ RSSI_MAX_VALUE ∧ r ≠ 0 then
      wfStatsGo t (if r < mn then r else mn) (if r > mx then r else mx) (vs + 1)
    else
      wfStatsGo t mn mx vs

/-- Statistics pass of `UpdateWaterfall` from spectrum.c. -/
def wfStats (l : List Nat) : Nat × Nat × Nat := wfStatsGo l 65535 0 0

/-- Per-bin quantization of `UpdateWaterfall` from spectrum.c: skip-sentinel
or zero bins give level 0; otherwise
`normalized = (rssi - minRssi) * 15 / range` with
`range = maxRssi > minRssi ? maxRssi - minRssi : 1`, masked with `& 0x0F`,
then the visibility floor lifts levels 1..2 to 3.  (In every call the bin
value is one of the samples the statistics ran over, so `mn ≤ r`.) -/
def wfLevel (st : Nat × Nat × Nat) (r : Nat) : Nat :=
  if r = RSSI_MAX_VALUE ∨ r = 0 then 0
  else if 0 < st.2.2 then
    let range := if st.2.1 > st.1 then st.2.1 - st.1 else 1
    let normalized := (r - st.1) * 15 / range
    let level := normalized % 16
    if 0 < level ∧ level < 3 then 3 else level
  else 0

/-- Modelled from the spec: the quantization contract of §4.4 / C9,
`clamp((rssi - sweepMin) * 15 / max(1, sweepMax - sweepMin), 0, 15)` with the
visibility floor raising computed levels 1–2 to 3, empty or skipped bins
storing 0. -/
def wfLevelSpec (st : Nat × Nat × Nat) (r : Nat) : Nat :=
  if r = RSSI_MAX_VALUE ∨ r = 0 then 0
  else if 0 < st.2.2 then
    let level := min ((r - st.1) * 15 / max 1 (st.2.1 - st.1)) 15
    if 0 < level ∧ level < 3 then 3 else level
  else 0

/-- `UpdateWaterfall` from spectrum.c: advance the circular cursor by one,
then store the quantized level of every bin of `rssiHistory` into the
cursor's row of `waterfallHistory`. -/
def UpdateWaterfall (s : Spec) : Spec :=
  let wIdx := (s.waterfallIndex + 1) % WATERFALL_HISTORY_DEPTH
  let st := wfStats s.rssiHistory
  { s with waterfallIndex := wIdx,
           waterfallHistory :=
             List.zipWith (fun row r => row.set wIdx (wfLevel st r))
               s.waterfallHistory s.rssiHistory }

/-- Read one stored waterfall cell: bin `bin`, depth slot `d`. -/
def wfCell (s : Spec) (bin d : Nat) : Nat :=
  (s.waterfallHistory.getD bin []).getD d 0

/-- The renderer's circular row resolution (`DrawWaterfall` in spectrum.c:
`historyRow = waterfallIndex - y_offset; if (historyRow < 0) += 16`):
read the cell of `bin` that is `age` pushes old. -/
def wfReadAge (s : Spec) (bin age : Nat) : Nat :=
  wfCell s bin ((s.waterfallIndex + WATERFALL_HISTORY_DEPTH - age % WATERFALL_HISTORY_DEPTH)
    % WATERFALL_HISTORY_DEPTH)

/-- Iterated waterfall pushes. -/
def iterPush : Nat → Spec → Spec
  | 0, s => s
  | n + 1, s => iterPush n (UpdateWaterfall s)

/-- Well-formedness of the fixed-size buffers: 128 sweep bins, 128 waterfall
columns of depth 16 (the C array dimensions). -/
def WaterfallWF (s : Spec) : Prop :=
  s.rssiHistory.length = SPECTRUM_MAX_STEPS ∧
  s.waterfallHistory.length = SPECTRUM_MAX_STEPS ∧
  ∀ i < SPECTRUM_MAX_STEPS, (s.waterfallHistory.getD i []).length = WATERFALL_HISTORY_DEPTH

instance (s : Spec) : Decidable (WaterfallWF s) := by
  unfold WaterfallWF; infer_instance

/-- The completion tail of `UpdateScan` from spectrum.c (executed when
`scanInfo.i` is no longer `< measurementsCount`): zero the unused tail of
`rssiHistory` when fewer than 128 measurements were configured, request a
redraw, re-enable keys, update the held peak, and push a waterfall row every
second completed sweep (the function-local static counter). -/
def ScanCompleteStats (s : Spec) : Spec :=
  let s1 :=
    if s.scanInfo.measurementsCount >>> 7 = 0 then
      { s with rssiHistory :=
          s.rssiHistory.mapIdx (fun j v => if s.scanInfo.measurementsCount ≤ j then 0 else v) }
    else s
  let s2 := { s1 with redrawScreen := true, preventKeypress := false }
  let s3 := UpdatePeakInfo s2
  if s3.scanWfCounter + 1 ≥ 2 then { UpdateWaterfall s3 with scanWfCounter := 0 }
  else { s3 with scanWfCounter := s3.scanWfCounter + 1 }

/-- `UpdateScan` from spectrum.c.  The returned flag is true exactly when the
completion branch ran (the sweep reported done on this call). -/
def UpdateScan (sample : Nat) (s : Spec) : Spec × Bool :=
  let s1 := Scan sample s
  if s1.scanInfo.i < s1.scanInfo.measurementsCount then (NextScanStep s1, false)
  else
    let s2 := ScanCompleteStats s1
    if IsPeakOverLevel s2 then (TuneToPeak (ToggleRX true s2), true)
    else ({ s2 with newScanStart := true }, true)

/-- State after `n` calls of `UpdateScan`, call `k` (0-based) measuring
`oracle k`. -/
def runScan (oracle : Nat → Nat) (s : Spec) : Nat → Spec
  | 0 => s
  | n + 1 => (UpdateScan (oracle n) (runScan oracle s n)).fst

/-- The done flag reported by the (k+1)-th `UpdateScan` call. -/
def doneAt (oracle : Nat → Nat) (s : Spec) (k : Nat) : Bool :=
  (UpdateScan (oracle k) (runScan oracle s k)).snd


/-- The sampling part of `UpdateListening` from spectrum.c once the listen
timer has expired: in SPECTRUM state one `Measure` sandwiched between the
scan/listen bandwidth register writes, plus a waterfall push every second
visit (function-local static counter); in other states just one `Measure`. -/
def ListenMeasure (sample : Nat) (s : Spec) : Spec :=
  if s.currentState = EngineState.SPECTRUM then
    let sm := Measure sample s
    if sm.listenWfCounter + 1 ≥ 2 then { UpdateWaterfall sm with listenWfCounter := 0 }
    else { sm with listenWfCounter := sm.listenWfCounter + 1 }
  else Measure sample s

/-- The entry of `UpdateListening` from spectrum.c: key handling re-enabled,
and the listen timer zeroed when the squelch-tail interrupt fired. -/
def listenArmed (tailFound : Bool) (s : Spec) : Spec :=
  let s0 := { s with preventKeypress := false }
  if tailFound then { s0 with listenT := 0 } else s0

/-- The state after the expired-timer path of `UpdateListening` has sampled:
one `ListenMeasure` pass, the held peak RSSI overwritten with the fresh
sample, redraw requested. -/
def listenSampled (tailFound : Bool) (sample : Nat) (s : Spec) : Spec :=
  let s2 := ListenMeasure sample (listenArmed tailFound s)
  { s2 with peak := { s2.peak with rssi := s2.scanInfo.rssi }, redrawScreen := true }

/-- `UpdateListening` from spectrum.c (N7SIX spectrum build).  `tailFound`
is the oracle for `checkIfTailFound()` (hardware squelch-tail interrupt),
`sample` the oracle for `GetRssi()`.  While the listen timer runs it only
decays; once expired, one sample is taken at the locked frequency, the held
peak RSSI is overwritten with it, and the radio stays in RX iff the sample
is at or above the trigger level with no tail found, or monitor mode holds
it open; otherwise RX is released and the sweep statistics reset. -/
def UpdateListening (tailFound : Bool) (sample : Nat) (s : Spec) : Spec :=
  let s1 := listenArmed tailFound s
  if s1.listenT ≠ 0 then { s1 with listenT := s1.listenT - 1 }
  else
    let s3 := listenSampled tailFound sample s
    if (IsPeakOverLevel s3 ∧ tailFound = false) ∨ s3.monitorMode then
      { s3 with listenT := 100 }
    else ResetScanStats (ToggleRX false s3)

/-- 128 zeroed RSSI bins (the zero-initialized global `rssiHistory`). -/
def zeros128 : List Nat := List.replicate 128 0

/-- A zeroed 128 x 16 waterfall (the zero-initialized global `waterfallHistory`). -/
def wf128x16 : List (List Nat) := List.replicate 128 (List.replicate 16 0)

/-- The engine state at the start of a fresh sweep: default settings
(`rssiTriggerLevel = 150`, `dbMin = -130`, `dbMax = -50`), statistics reset
by `RelaunchScan` (`rssiMin = RSSI_MAX_VALUE`), `InitScan` done
(`i = 0`, 64 measurements of 25 kHz from 433.5 MHz), zeroed buffers,
band-correction offset 0. -/
def baseSpec : Spec where
  settings := { rssiTriggerLevel := 150, dbMin := -130, dbMax := -50 }
  peak := { f := 0, rssi := 0, i := 0, t := 0 }
  scanInfo := { rssi := 0, rssiMin := 65535, rssiMax := 0, iPeak := 0, fPeak := 0,
                i := 0, f := 43350000, scanStep := 2500, measurementsCount := 64 }
  rssiHistory := zeros128
  waterfallHistory := wf128x16
  waterfallIndex := 0
  isListening := false
  monitorMode := false
  currentState := EngineState.SPECTRUM
  fMeasure := 0
  listenT := 0
  newScanStart := false
  preventKeypress := true
  redrawScreen := false
  scanWfCounter := 0
  listenWfCounter := 0
  corr := 0

/-- `baseSpec` reconfigured to a 128-step sweep (`settings.stepsCount = STEPS_128`,
so `GetStepsCount() = 128 >> 0 = 128`). -/
def baseSpec128 : Spec :=
  { baseSpec with scanInfo := { baseSpec.scanInfo with measurementsCount := 128 } }

/-- A strictly increasing RSSI oracle for concrete sweep runs. -/
def scanOracle : Nat → Nat := fun k => 40 + k

/-! Basic frame lemmas: which parts of the state each operation leaves alone. -/

theorem AutoTriggerLevel_peak (s : Spec) : (AutoTriggerLevel s).peak = s.peak := rfl

theorem AutoTriggerLevel_scanInfo (s : Spec) : (AutoTriggerLevel s).scanInfo = s.scanInfo := rfl

theorem AutoTriggerLevel_rssiHistory (s : Spec) :
    (AutoTriggerLevel s).rssiHistory = s.rssiHistory := rfl

theorem AutoTriggerLevel_trigger (s : Spec) :
    (AutoTriggerLevel s).settings.rssiTriggerLevel =
      autoTriggerCompute s.settings.rssiTriggerLevel s.scanInfo.rssiMax := rfl

/-- `C2`: the claim says `GetRssi` always terminates because its
hardware-busy polling loop has an explicit timeout/backoff bound.  The code
has no such bound: on a front end whose glitch register low byte stays at
255, the loop never exits, for any number of iterations.  (The spec's
requirement — never block indefinitely, treat a timeout as a zero/invalid
sample — is the documented intent; the loop in the code is the slip.) -/
theorem getRssiPoll_stuck_no_timeout (fuel k : Nat) :
    getRssiPoll (fun _ => 255) k fuel = none := by
  induction fuel generalizing k with
  | zero => rfl
  | succ n ih => simpa [getRssiPoll] using ih (k + 1)

/-- `C3`: on sweep completion the held peak is force-refreshed (copied from
the sweep maximum with its frequency and bin index, age reset to 0) exactly
when the peak is uninitialized (`f = 0`), its age has reached 1024, or the
sweep maximum RSSI is strictly greater than the held peak RSSI; in every
other case the peak is kept and only its age increments. -/
theorem updatePeakInfo_refresh_policy (s : Spec) :
    (UpdatePeakInfo s).peak =
      if s.peak.f = 0 ∨ s.peak.t ≥ 1024 ∨ s.scanInfo.rssiMax > s.peak.rssi then
        { f := s.scanInfo.fPeak, rssi := s.scanInfo.rssiMax, i := s.scanInfo.iPeak, t := 0 }
      else
        { s.peak with t := s.peak.t + 1 } := by
  unfold UpdatePeakInfo UpdatePeakInfoForce
  split
  · rw [AutoTriggerLevel_peak]
  · rfl

/-- `C10`: converting a raw RSSI to dBm and back loses at most the integer
rounding of the halving in `Rssi2DBm`: `dbm2rssi (Rssi2DBm rssi)` equals
`rssi` rounded down to an even value, so the round trip is within ±1 unit,
for every band-correction offset. -/
theorem rssi_dbm_roundtrip (corr : Int) (rssi : Nat) (h : rssi ≤ 65535) :
    dbm2rssi corr (Rssi2DBm corr rssi) = rssi - rssi % 2 ∧
    rssi - dbm2rssi corr (Rssi2DBm corr rssi) ≤ 1 ∧
    dbm2rssi corr (Rssi2DBm corr rssi) ≤ rssi := by
  unfold dbm2rssi Rssi2DBm toU16
  have heq : ((rssi / 2 : Nat) : Int) - 160 + corr + 160 - corr = ((rssi / 2 : Nat) : Int) := by
    ring
  rw [heq]
  omega

/-- Witness for `rssi_dbm_roundtrip` at `corr = 7`, `rssi = 155`. -/
theorem rssi_dbm_roundtrip_witness :
    dbm2rssi 7 (Rssi2DBm 7 155) = 155 - 155 % 2 ∧
    155 - dbm2rssi 7 (Rssi2DBm 7 155) ≤ 1 ∧
    dbm2rssi 7 (Rssi2DBm 7 155) ≤ 155 :=
  rssi_dbm_roundtrip 7 155 (by decide)

/-- A state reached after the trigger has ramped up to 218 under default
display bounds (`dbMin = -130`, `dbMax = -50`, `corr = 0`, so
`dbm2rssi(dbMin) = 60`, `dbm2rssi(dbMax) = 220`) while a strong carrier
keeps the sweep maximum at 300. -/
def drift1 : Spec :=
  { baseSpec with
      settings := { baseSpec.settings with rssiTriggerLevel := 218 },
      scanInfo := { baseSpec.scanInfo with rssiMax := 300 } }

/-- `C1` counterexample: one sweep-completion trigger recomputation from
trigger 218 with sweep maximum 300 assigns 221, which is a non-sentinel
value strictly above `dbm2rssi(dbMax) = 220` — `AutoTriggerLevel` never
applies the `[dbm2rssi(dbMin), dbm2rssi(dbMax)]` clamp. -/
theorem autoTrigger_outside_dbm_range :
    (AutoTriggerLevel drift1).settings.rssiTriggerLevel = 221 ∧
    (AutoTriggerLevel drift1).settings.rssiTriggerLevel ≠ RSSI_MAX_VALUE ∧
    dbm2rssi drift1.corr drift1.settings.dbMax = 220 ∧
    ¬ (AutoTriggerLevel drift1).settings.rssiTriggerLevel ≤
        dbm2rssi drift1.corr drift1.settings.dbMax := by
  decide

/-- Bound used for the trigger range: a C clamp into `[0, hi]` is at most `hi`. -/
theorem cclamp_toNat_le (v : Int) (hi : Nat) : (cclamp v 0 (hi : Int)).toNat ≤ hi := by
  unfold cclamp; split_ifs <;> omega

/-- The ramp step is between 1 and 3 units. -/
theorem rampStep_bounds (diff : Int) : 1 ≤ rampStep diff ∧ rampStep diff ≤ 3 := by
  unfold rampStep; split_ifs <;> omega

/-- The ramp target is a valid `uint16_t` value. -/
theorem triggerTarget_le (rssiMax : Nat) : triggerTarget rssiMax ≤ 65535 := by
  have h := cclamp_toNat_le ((rssiMax : Int) + 8) 65535
  unfold triggerTarget toU16 RSSI_MAX_VALUE
  dsimp only
  unfold RSSI_MAX_VALUE at h
  split_ifs <;> omega

/-- The recomputed trigger is a valid `uint16_t` value whenever the current
one is. -/
theorem autoTriggerCompute_le (trig rssiMax : Nat) (h : trig ≤ 65535) :
    autoTriggerCompute trig rssiMax ≤ 65535 := by
  have h1 := cclamp_toNat_le ((toU16 ((rssiMax : Int) + 20) : Nat) : Int) 65535
  have h2 := triggerTarget_le rssiMax
  unfold autoTriggerCompute RSSI_MAX_VALUE
  unfold RSSI_MAX_VALUE at h1
  dsimp only
  split_ifs <;> omega

/-- `C1` (amended): the `[dbm2rssi(dbMin), dbm2rssi(dbMax)]` clamp is applied
only by `ClampRssiTriggerLevel` (the manual trigger/display-range adjustment
paths), whose output always lies in that range when the bounds are ordered;
the automatic recomputation `AutoTriggerLevel` clamps only into
`[0, RSSI_MAX_VALUE]`, so the trigger it assigns after a completed sweep may
leave the dBm-derived range. -/
theorem trigger_clamped_only_on_manual_paths (s : Spec)
    (hlo : dbm2rssi s.corr s.settings.dbMin ≤ dbm2rssi s.corr s.settings.dbMax)
    (htrig : s.settings.rssiTriggerLevel ≤ 65535) :
    dbm2rssi s.corr s.settings.dbMin ≤ (ClampRssiTriggerLevel s).settings.rssiTriggerLevel ∧
    (ClampRssiTriggerLevel s).settings.rssiTriggerLevel ≤ dbm2rssi s.corr s.settings.dbMax ∧
    (AutoTriggerLevel s).settings.rssiTriggerLevel ≤ RSSI_MAX_VALUE := by
  refine ⟨?_, ?_, ?_⟩
  · show dbm2rssi s.corr s.settings.dbMin ≤ (cclamp _ _ _).toNat
    unfold cclamp
    split_ifs <;> omega
  · show (cclamp _ _ _).toNat ≤ dbm2rssi s.corr s.settings.dbMax
    unfold cclamp
    split_ifs <;> omega
  · rw [AutoTriggerLevel_trigger]
    exact autoTriggerCompute_le _ _ htrig

/-- Witness for `trigger_clamped_only_on_manual_paths` at `drift1`. -/
theorem trigger_clamped_only_on_manual_paths_witness :
    dbm2rssi drift1.corr drift1.settings.dbMin ≤
      (ClampRssiTriggerLevel drift1).settings.rssiTriggerLevel ∧
    (ClampRssiTriggerLevel drift1).settings.rssiTriggerLevel ≤
      dbm2rssi drift1.corr drift1.settings.dbMax ∧
    (AutoTriggerLevel drift1).settings.rssiTriggerLevel ≤ RSSI_MAX_VALUE :=
  trigger_clamped_only_on_manual_paths drift1 (by decide) (by decide)

/-- A flat sweep (noise floor = sweep maximum = 150) with the trigger at its
default 150; the spec's Scenario B reads this as `newTarget = noiseFloor + 12
= 162` and predicts a `+2` step to 152. -/
def ramp4 : Spec :=
  { baseSpec with
      scanInfo := { baseSpec.scanInfo with rssiMin := 150, rssiMax := 150 } }

/-- `C4` counterexample: from trigger 150 with noise floor 150 (the claim's
`newTarget = 162`), a single sweep update of `AutoTriggerLevel` assigns 153,
not the claimed 152: the code targets `rssiMax + 15 = 165` and the gap of 15
selects the `+3` step, not `+2`. -/
theorem autoTrigger_ramp_step_is_three :
    (AutoTriggerLevel ramp4).settings.rssiTriggerLevel = 153 ∧
    (AutoTriggerLevel ramp4).settings.rssiTriggerLevel ≠ 152 := by
  decide

/-- `C4` (amended): when the trigger is not the sentinel, one sweep's
recomputation ramps the current trigger toward the target
`rssiMax + 15` (the computed `rssiMax + 8` raised to that minimum) by a
bounded step of at most 3 units per sweep in either direction rather than
snapping; concretely, from trigger 150 with the claim's target scenario the
single-sweep update yields 153 (a `+3` step). -/
theorem autoTrigger_bounded_ramp (s : Spec)
    (h1 : s.settings.rssiTriggerLevel ≠ RSSI_MAX_VALUE)
    (h2 : s.settings.rssiTriggerLevel ≤ 65532) :
    (AutoTriggerLevel s).settings.rssiTriggerLevel ≤ s.settings.rssiTriggerLevel + 3 ∧
    s.settings.rssiTriggerLevel ≤ (AutoTriggerLevel s).settings.rssiTriggerLevel + 3 ∧
    (AutoTriggerLevel ramp4).settings.rssiTriggerLevel = 153 := by
  have hs1 := rampStep_bounds (toInt16 (triggerTarget s.scanInfo.rssiMax) -
    toInt16 s.settings.rssiTriggerLevel)
  have hs2 := rampStep_bounds (toInt16 s.settings.rssiTriggerLevel -
    toInt16 (triggerTarget s.scanInfo.rssiMax))
  refine ⟨?_, ?_, by decide⟩ <;>
  · rw [AutoTriggerLevel_trigger]
    unfold autoTriggerCompute
    rw [if_neg h1]
    dsimp only
    split_ifs <;> omega

/-- Witness for `autoTrigger_bounded_ramp` at `ramp4`. -/
theorem autoTrigger_bounded_ramp_witness :
    (AutoTriggerLevel ramp4).settings.rssiTriggerLevel ≤ ramp4.settings.rssiTriggerLevel + 3 ∧
    ramp4.settings.rssiTriggerLevel ≤ (AutoTriggerLevel ramp4).settings.rssiTriggerLevel + 3 ∧
    (AutoTriggerLevel ramp4).settings.rssiTriggerLevel = 153 :=
  autoTrigger_bounded_ramp ramp4 (by decide) (by decide)

/-! Frame lemmas for the listening path. -/

theorem UpdateWaterfall_scanInfo (s : Spec) : (UpdateWaterfall s).scanInfo = s.scanInfo := rfl

theorem UpdateWaterfall_peak (s : Spec) : (UpdateWaterfall s).peak = s.peak := rfl

theorem UpdateWaterfall_settings (s : Spec) : (UpdateWaterfall s).settings = s.settings := rfl

theorem UpdateWaterfall_isListening (s : Spec) :
    (UpdateWaterfall s).isListening = s.isListening := rfl

theorem UpdateWaterfall_monitorMode (s : Spec) :
    (UpdateWaterfall s).monitorMode = s.monitorMode := rfl

theorem UpdateWaterfall_listenT (s : Spec) : (UpdateWaterfall s).listenT = s.listenT := rfl

theorem UpdateWaterfall_rssiHistory (s : Spec) :
    (UpdateWaterfall s).rssiHistory = s.rssiHistory := rfl

theorem ToggleRX_false_of_listening (s : Spec) (h : s.isListening = true) :
    ToggleRX false s = { s with isListening := false } := by
  unfold ToggleRX
  rw [if_neg (by simp [h]), if_neg (by simp)]

/-! What one listening-mode sampling pass does and does not touch. -/

theorem ListenMeasure_rssi (sample : Nat) (s : Spec) :
    (ListenMeasure sample s).scanInfo.rssi = sample := by
  unfold ListenMeasure; dsimp only; split_ifs <;> rfl

theorem ListenMeasure_rssiMax (sample : Nat) (s : Spec) :
    (ListenMeasure sample s).scanInfo.rssiMax = s.scanInfo.rssiMax := by
  unfold ListenMeasure; dsimp only; split_ifs <;> rfl

theorem ListenMeasure_fPeak (sample : Nat) (s : Spec) :
    (ListenMeasure sample s).scanInfo.fPeak = s.scanInfo.fPeak := by
  unfold ListenMeasure; dsimp only; split_ifs <;> rfl

theorem ListenMeasure_iPeak (sample : Nat) (s : Spec) :
    (ListenMeasure sample s).scanInfo.iPeak = s.scanInfo.iPeak := by
  unfold ListenMeasure; dsimp only; split_ifs <;> rfl

theorem ListenMeasure_settings (sample : Nat) (s : Spec) :
    (ListenMeasure sample s).settings = s.settings := by
  unfold ListenMeasure; dsimp only; split_ifs <;> rfl

theorem ListenMeasure_isListening (sample : Nat) (s : Spec) :
    (ListenMeasure sample s).isListening = s.isListening := by
  unfold ListenMeasure; dsimp only; split_ifs <;> rfl

theorem ListenMeasure_monitorMode (sample : Nat) (s : Spec) :
    (ListenMeasure sample s).monitorMode = s.monitorMode := by
  unfold ListenMeasure; dsimp only; split_ifs <;> rfl

theorem ListenMeasure_listenT (sample : Nat) (s : Spec) :
    (ListenMeasure sample s).listenT = s.listenT := by
  unfold ListenMeasure; dsimp only; split_ifs <;> rfl

theorem listenArmed_listenT (t : Bool) (s : Spec) :
    (listenArmed t s).listenT = if t then 0 else s.listenT := by
  cases t <;> rfl

theorem listenArmed_scanInfo (t : Bool) (s : Spec) :
    (listenArmed t s).scanInfo = s.scanInfo := by
  cases t <;> rfl

theorem listenArmed_settings (t : Bool) (s : Spec) :
    (listenArmed t s).settings = s.settings := by
  cases t <;> rfl

theorem listenArmed_isListening (t : Bool) (s : Spec) :
    (listenArmed t s).isListening = s.isListening := by
  cases t <;> rfl

theorem listenArmed_monitorMode (t : Bool) (s : Spec) :
    (listenArmed t s).monitorMode = s.monitorMode := by
  cases t <;> rfl

theorem listenSampled_peak_rssi (t : Bool) (sample : Nat) (s : Spec) :
    (listenSampled t sample s).peak.rssi = sample := by
  unfold listenSampled; dsimp only; rw [ListenMeasure_rssi]

theorem listenSampled_scanInfo_rssi (t : Bool) (sample : Nat) (s : Spec) :
    (listenSampled t sample s).scanInfo.rssi = sample := by
  unfold listenSampled; dsimp only; rw [ListenMeasure_rssi]

theorem listenSampled_rssiMax (t : Bool) (sample : Nat) (s : Spec) :
    (listenSampled t sample s).scanInfo.rssiMax = s.scanInfo.rssiMax := by
  unfold listenSampled; dsimp only; rw [ListenMeasure_rssiMax, listenArmed_scanInfo]

theorem listenSampled_fPeak (t : Bool) (sample : Nat) (s : Spec) :
    (listenSampled t sample s).scanInfo.fPeak = s.scanInfo.fPeak := by
  unfold listenSampled; dsimp only; rw [ListenMeasure_fPeak, listenArmed_scanInfo]

theorem listenSampled_iPeak (t : Bool) (sample : Nat) (s : Spec) :
    (listenSampled t sample s).scanInfo.iPeak = s.scanInfo.iPeak := by
  unfold listenSampled; dsimp only; rw [ListenMeasure_iPeak, listenArmed_scanInfo]

theorem listenSampled_settings (t : Bool) (sample : Nat) (s : Spec) :
    (listenSampled t sample s).settings = s.settings := by
  unfold listenSampled; dsimp only; rw [ListenMeasure_settings, listenArmed_settings]

theorem listenSampled_isListening (t : Bool) (sample : Nat) (s : Spec) :
    (listenSampled t sample s).isListening = s.isListening := by
  unfold listenSampled; dsimp only; rw [ListenMeasure_isListening, listenArmed_isListening]

theorem listenSampled_monitorMode (t : Bool) (sample : Nat) (s : Spec) :
    (listenSampled t sample s).monitorMode = s.monitorMode := by
  unfold listenSampled; dsimp only; rw [ListenMeasure_monitorMode, listenArmed_monitorMode]

theorem listenSampled_listenT (t : Bool) (sample : Nat) (s : Spec) :
    (listenSampled t sample s).listenT = if t then 0 else s.listenT := by
  unfold listenSampled; dsimp only; rw [ListenMeasure_listenT, listenArmed_listenT]

/-- The exit condition of the SignalLock state, as the code decides it: the
sampled RSSI is strictly below the trigger level or the squelch tail was
found, and monitor mode does not hold the lock open.  (This is the negation
of the code's stay condition `(IsPeakOverLevel() && !tailFound) ||
monitorMode` with `peak.rssi` freshly overwritten by the sample.) -/
def listenExitCond (tail : Bool) (sample trig : Nat) (monitor : Bool) : Bool :=
  (decide (sample < trig) || tail) && !monitor

/-- The exit condition is down exactly when the code's stay condition holds. -/
theorem listenExitCond_false_iff (tail : Bool) (sample trig : Nat) (monitor : Bool) :
    listenExitCond tail sample trig monitor = false ↔
      ((trig ≤ sample ∧ tail = false) ∨ monitor = true) := by
  unfold listenExitCond
  cases tail <;> cases monitor <;> simp <;> omega

/-- An in-lock state: listening at the held peak, listen timer expired,
trigger level 150, monitor off. -/
def lock8 : Spec :=
  { baseSpec with
      isListening := true,
      listenT := 0,
      scanInfo := { baseSpec.scanInfo with i := 10, f := 146525000 } }

/-- `C8` counterexample: in SignalLock with trigger level 150, a sampled
RSSI of 149 — exactly one unit below the trigger, hence not below
`triggerLevel - hysteresisMargin` for any positive margin (shown for the
smallest margin 1) — already returns the engine to Sweep: the exit
comparison uses the same threshold as the entry comparison, with no
hysteresis margin. -/
theorem signalLock_exit_without_margin :
    (UpdateListening false 149 lock8).isListening = false ∧
    lock8.settings.rssiTriggerLevel = 150 ∧
    ¬ (149 < lock8.settings.rssiTriggerLevel - 1) := by
  decide

/-- `C8` (amended): once the listen timer has expired, SignalLock returns to
Sweep exactly when the freshly sampled RSSI is strictly below the trigger
level (the same threshold used to enter lock — there is no hysteresis
margin) or the squelch-tail detector fired, and monitor mode does not hold
the lock open; on that return the sweep statistics are reset (and on a stay
the listen timer is re-armed to 100). -/
theorem updateListening_exit_same_threshold (tail : Bool) (sample : Nat) (s : Spec)
    (hT : (if tail then 0 else s.listenT) = 0)
    (hL : s.isListening = true) :
    (UpdateListening tail sample s).isListening =
      !(listenExitCond tail sample s.settings.rssiTriggerLevel s.monitorMode) ∧
    (UpdateListening tail sample s).scanInfo.rssiMax =
      (if listenExitCond tail sample s.settings.rssiTriggerLevel s.monitorMode
       then 0 else s.scanInfo.rssiMax) ∧
    (UpdateListening tail sample s).scanInfo.fPeak =
      (if listenExitCond tail sample s.settings.rssiTriggerLevel s.monitorMode
       then 0 else s.scanInfo.fPeak) ∧
    (UpdateListening tail sample s).scanInfo.iPeak =
      (if listenExitCond tail sample s.settings.rssiTriggerLevel s.monitorMode
       then 0 else s.scanInfo.iPeak) ∧
    (UpdateListening tail sample s).scanInfo.rssi =
      (if listenExitCond tail sample s.settings.rssiTriggerLevel s.monitorMode
       then 0 else sample) ∧
    (UpdateListening tail sample s).listenT =
      (if listenExitCond tail sample s.settings.rssiTriggerLevel s.monitorMode
       then 0 else 100) := by
  unfold UpdateListening
  dsimp only
  rw [if_neg (by simp [listenArmed_listenT, hT])]
  split_ifs with hC hE hE2
  · exfalso
    have he : listenExitCond tail sample s.settings.rssiTriggerLevel s.monitorMode = false := by
      apply (listenExitCond_false_iff _ _ _ _).mpr
      rcases hC with ⟨h1', ht0⟩ | h2'
      · exact Or.inl ⟨by simpa [IsPeakOverLevel, listenSampled_peak_rssi,
          listenSampled_settings] using h1', ht0⟩
      · exact Or.inr (by simpa [listenSampled_monitorMode] using h2')
    simp [hE] at he
  · simp only [Bool.not_eq_true] at hE
    simp [hE, listenSampled_isListening, listenSampled_rssiMax, listenSampled_fPeak,
      listenSampled_iPeak, listenSampled_scanInfo_rssi, hL]
  · rw [ToggleRX_false_of_listening]
    · simp [hE2, ResetScanStats, listenSampled_listenT, hT]
    · simp [listenSampled_isListening, hL]
  · exfalso
    simp only [Bool.not_eq_true] at hE2
    rcases (listenExitCond_false_iff _ _ _ _).mp hE2 with ⟨hge, ht0⟩ | hmon'
    · exact hC (Or.inl ⟨by simpa [IsPeakOverLevel, listenSampled_peak_rssi,
        listenSampled_settings] using hge, ht0⟩)
    · exact hC (Or.inr (by simpa [listenSampled_monitorMode] using hmon'))

/-! Frame lemmas for the sweep path. -/

theorem UpdateScanInfo_i (s : Spec) : (UpdateScanInfo s).scanInfo.i = s.scanInfo.i := by
  unfold UpdateScanInfo; dsimp only; split_ifs <;> rfl

theorem UpdateScanInfo_count (s : Spec) :
    (UpdateScanInfo s).scanInfo.measurementsCount = s.scanInfo.measurementsCount := by
  unfold UpdateScanInfo; dsimp only; split_ifs <;> rfl

theorem UpdateScanInfo_rssiHistory (s : Spec) :
    (UpdateScanInfo s).rssiHistory = s.rssiHistory := by
  unfold UpdateScanInfo; dsimp only; split_ifs <;> rfl

theorem Scan_scanInfo_i (sample : Nat) (s : Spec) :
    (Scan sample s).scanInfo.i = s.scanInfo.i := by
  unfold Scan; split_ifs
  · rw [UpdateScanInfo_i]; rfl
  · rfl

theorem Scan_count (sample : Nat) (s : Spec) :
    (Scan sample s).scanInfo.measurementsCount = s.scanInfo.measurementsCount := by
  unfold Scan; split_ifs
  · rw [UpdateScanInfo_count]; rfl
  · rfl

theorem Scan_histLen (sample : Nat) (s : Spec) :
    (Scan sample s).rssiHistory.length = s.rssiHistory.length := by
  unfold Scan; split_ifs
  · rw [UpdateScanInfo_rssiHistory]
    simp [Measure, SetRssiHistory, SetF]
  · rfl

theorem ToggleRX_peak (enable : Bool) (s : Spec) : (ToggleRX enable s).peak = s.peak := by
  unfold ToggleRX; split_ifs <;> rfl

theorem ToggleRX_true_isListening (s : Spec) : (ToggleRX true s).isListening = true := by
  unfold ToggleRX; split_ifs with h <;> simp_all

/-- The done flag of one `UpdateScan` call: true exactly when the call was
entered with `scanInfo.i` no longer below `measurementsCount`. -/
theorem UpdateScan_done (sample : Nat) (s : Spec) :
    (UpdateScan sample s).snd =
      decide (s.scanInfo.measurementsCount ≤ s.scanInfo.i) := by
  unfold UpdateScan
  dsimp only
  split_ifs with h1 h2
  · rw [Scan_scanInfo_i, Scan_count] at h1
    exact (decide_eq_false (by omega)).symm
  · rw [Scan_scanInfo_i, Scan_count] at h1
    exact (decide_eq_true (by omega)).symm
  · rw [Scan_scanInfo_i, Scan_count] at h1
    exact (decide_eq_true (by omega)).symm

/-- One in-sweep `UpdateScan` call advances the step index by exactly one
and leaves the sweep length and the history size unchanged. -/
theorem UpdateScan_step (sample : Nat) (s : Spec)
    (h : s.scanInfo.i < s.scanInfo.measurementsCount) :
    (UpdateScan sample s).fst.scanInfo.i = s.scanInfo.i + 1 ∧
    (UpdateScan sample s).fst.scanInfo.measurementsCount =
      s.scanInfo.measurementsCount ∧
    (UpdateScan sample s).fst.rssiHistory.length = s.rssiHistory.length := by
  unfold UpdateScan
  dsimp only
  rw [if_pos (by rw [Scan_scanInfo_i, Scan_count]; exact h)]
  refine ⟨?_, ?_, ?_⟩
  · show (Scan sample s).scanInfo.i + 1 = s.scanInfo.i + 1
    rw [Scan_scanInfo_i]
  · show (Scan sample s).scanInfo.measurementsCount = s.scanInfo.measurementsCount
    exact Scan_count sample s
  · show (Scan sample s).rssiHistory.length = s.rssiHistory.length
    exact Scan_histLen sample s

/-- Step-index invariant of a fresh sweep: after `k ≤ measurementsCount`
calls the index is exactly `k`, and the sweep length and history size are
untouched. -/
theorem runScan_progress (o : Nat → Nat) (s : Spec) (c : Nat)
    (h0 : s.scanInfo.i = 0) (hc : s.scanInfo.measurementsCount = c) :
    ∀ k, k ≤ c → (runScan o s k).scanInfo.i = k ∧
      (runScan o s k).scanInfo.measurementsCount = c ∧
      (runScan o s k).rssiHistory.length = s.rssiHistory.length := by
  intro k
  induction k with
  | zero => intro _; exact ⟨h0, hc, rfl⟩
  | succ n ih =>
    intro hn
    obtain ⟨hi, hcnt, hlen⟩ := ih (Nat.le_of_succ_le hn)
    have hlt : (runScan o s n).scanInfo.i < (runScan o s n).scanInfo.measurementsCount := by
      rw [hi, hcnt]; omega
    obtain ⟨h1, h2, h3⟩ := UpdateScan_step (o n) (runScan o s n) hlt
    refine ⟨?_, ?_, ?_⟩
    · show (UpdateScan (o n) (runScan o s n)).fst.scanInfo.i = n + 1
      rw [h1, hi]
    · show (UpdateScan (o n) (runScan o s n)).fst.scanInfo.measurementsCount = c
      rw [h2, hcnt]
    · show (UpdateScan (o n) (runScan o s n)).fst.rssiHistory.length = s.rssiHistory.length
      rw [h3, hlen]

/-- Within a fresh sweep the done flag is reported on exactly one call: the
one entered with `scanInfo.i = measurementsCount`. -/
theorem doneAt_eq (o : Nat → Nat) (s : Spec) (c k : Nat)
    (h0 : s.scanInfo.i = 0) (hc : s.scanInfo.measurementsCount = c)
    (hk : k ≤ c) :
    doneAt o s k = decide (k = c) := by
  obtain ⟨hi, hcnt, _⟩ := runScan_progress o s c h0 hc k hk
  unfold doneAt
  rw [UpdateScan_done, hi, hcnt]
  simp only [decide_eq_decide]
  omega

/-- Witness for `updateListening_exit_same_threshold` at `lock8`,
`tail = false`, `sample = 149`. -/
theorem updateListening_exit_same_threshold_witness :
    (UpdateListening false 149 lock8).isListening =
      !(listenExitCond false 149 lock8.settings.rssiTriggerLevel lock8.monitorMode) ∧
    (UpdateListening false 149 lock8).scanInfo.rssiMax =
      (if listenExitCond false 149 lock8.settings.rssiTriggerLevel lock8.monitorMode
       then 0 else lock8.scanInfo.rssiMax) ∧
    (UpdateListening false 149 lock8).scanInfo.fPeak =
      (if listenExitCond false 149 lock8.settings.rssiTriggerLevel lock8.monitorMode
       then 0 else lock8.scanInfo.fPeak) ∧
    (UpdateListening false 149 lock8).scanInfo.iPeak =
      (if listenExitCond false 149 lock8.settings.rssiTriggerLevel lock8.monitorMode
       then 0 else lock8.scanInfo.iPeak) ∧
    (UpdateListening false 149 lock8).scanInfo.rssi =
      (if listenExitCond false 149 lock8.settings.rssiTriggerLevel lock8.monitorMode
       then 0 else 149) ∧
    (UpdateListening false 149 lock8).listenT =
      (if listenExitCond false 149 lock8.settings.rssiTriggerLevel lock8.monitorMode
       then 0 else 100) :=
  updateListening_exit_same_threshold false 149 lock8 (by decide) (by decide)

/-- `C5` counterexample: for a fresh sweep with `stepCount = 64`, the 64th
`UpdateScan` call does not report done (it still takes the in-sweep branch,
leaving `scanInfo.i = 64`); done is reported only on the 65th call. -/
theorem sweep_not_done_on_64th_call :
    doneAt scanOracle baseSpec 63 = false ∧
    doneAt scanOracle baseSpec 64 = true := by
  constructor
  · rw [doneAt_eq scanOracle baseSpec 64 63 rfl rfl (by omega)]
    decide
  · rw [doneAt_eq scanOracle baseSpec 64 64 rfl rfl (by omega)]
    decide

/-- `C5` (amended): a fresh sweep with `measurementsCount = c` reports done
on exactly one call, the `(c+1)`-th — the call entered with
`stepIndex = stepCount`, after the previous call has already advanced the
index past the last bin — and that completing call still invokes `Scan` with
bin index `c`, performing one extra access (and, unless the bin holds the
skip sentinel, one extra measurement) beyond the sweep's `c` bins. -/
theorem sweep_done_on_call_c_plus_one (o : Nat → Nat) (s : Spec) (c k : Nat)
    (h0 : s.scanInfo.i = 0) (hc : s.scanInfo.measurementsCount = c)
    (hk : k ≤ c) :
    doneAt o s k = decide (k = c) ∧
    (runScan o s c).scanInfo.i = c ∧
    (runScan o s c).scanInfo.measurementsCount = c := by
  obtain ⟨hi, hcnt, _⟩ := runScan_progress o s c h0 hc c le_rfl
  exact ⟨doneAt_eq o s c k h0 hc hk, hi, hcnt⟩

/-- Witness for `sweep_done_on_call_c_plus_one` at the fresh 64-step sweep,
`k = 64` (the call that reports done). -/
theorem sweep_done_on_call_c_plus_one_witness :
    doneAt scanOracle baseSpec 64 = decide (64 = 64) ∧
    (runScan scanOracle baseSpec 64).scanInfo.i = 64 ∧
    (runScan scanOracle baseSpec 64).scanInfo.measurementsCount = 64 :=
  sweep_done_on_call_c_plus_one scanOracle baseSpec 64 64 rfl rfl (by omega)

/-- `C6`: with `measurementsCount = 128` (`settings.stepsCount = STEPS_128`),
the sweep's completing call — the 129th, the one that reports done — enters
`Scan` with `scanInfo.i = 128 = measurementsCount`, and `Scan`'s unguarded
first access `rssiHistory[scanInfo.i]` addresses index 128 of the 128-entry
`rssiHistory` array: one element past its end (`get? = none` in the model;
an out-of-bounds read, and — when the garbage read is not the
`RSSI_MAX_VALUE` skip sentinel — a measurement and an out-of-bounds write,
in the C code). -/
theorem scan_completion_reads_past_end :
    (runScan scanOracle baseSpec128 128).scanInfo.i = 128 ∧
    (runScan scanOracle baseSpec128 128).scanInfo.measurementsCount = 128 ∧
    (runScan scanOracle baseSpec128 128).rssiHistory.length = 128 ∧
    (runScan scanOracle baseSpec128 128).rssiHistory.get?
      (runScan scanOracle baseSpec128 128).scanInfo.i = none ∧
    doneAt scanOracle baseSpec128 128 = true := by
  obtain ⟨hi, hcnt, hlen⟩ := runScan_progress scanOracle baseSpec128 128 rfl rfl 128 le_rfl
  have hlen' : (runScan scanOracle baseSpec128 128).rssiHistory.length = 128 := by
    rw [hlen]; rfl
  refine ⟨hi, hcnt, hlen', ?_, ?_⟩
  · rw [hi, List.get?_eq_getElem?]
    exact List.getElem?_eq_none hlen'.le
  · rw [doneAt_eq scanOracle baseSpec128 128 128 rfl rfl le_rfl]
    decide

/-- `C7`: whenever a sweep completes (the call entered with the index no
longer below the sweep length) and the freshly updated held peak is strictly
above the freshly recomputed trigger level, the engine enters the listening
(SignalLock) state and the RF front end is left tuned to exactly the held
peak's frequency `peak.f` — which the result also still carries — not to the
frequency of the last sweep step. -/
theorem updateScan_lock_tunes_to_peak (sample : Nat) (s : Spec)
    (h1 : ¬ (Scan sample s).scanInfo.i < (Scan sample s).scanInfo.measurementsCount)
    (h2 : (ScanCompleteStats (Scan sample s)).settings.rssiTriggerLevel <
      (ScanCompleteStats (Scan sample s)).peak.rssi) :
    (UpdateScan sample s).fst.fMeasure = (ScanCompleteStats (Scan sample s)).peak.f ∧
    (UpdateScan sample s).fst.peak.f = (ScanCompleteStats (Scan sample s)).peak.f ∧
    (UpdateScan sample s).fst.isListening = true ∧
    (UpdateScan sample s).snd = true := by
  unfold UpdateScan
  dsimp only
  rw [if_neg h1, if_pos (show IsPeakOverLevel (ScanCompleteStats (Scan sample s)) = true by
    simp only [IsPeakOverLevel, decide_eq_true_eq]
    omega)]
  refine ⟨?_, ?_, ?_, rfl⟩
  · simp [TuneToPeak, SetF, ToggleRX_peak]
  · simp [TuneToPeak, SetF, ToggleRX_peak]
  · simp [TuneToPeak, SetF, ToggleRX_true_isListening]

/-- A completed sweep whose held peak (146.525 MHz, RSSI 200) stands above
the trigger (100): the completing call's bin holds the skip sentinel, so the
final measurement is skipped and the held peak survives `UpdatePeakInfo`
unchanged (the sweep maximum 150 is not strictly greater than 200). -/
def lock7 : Spec :=
  { baseSpec with
      peak := { f := 146525000, rssi := 200, i := 10, t := 5 },
      settings := { baseSpec.settings with rssiTriggerLevel := 100 },
      scanInfo :=
        { baseSpec.scanInfo with
            i := 64, rssiMax := 150, rssiMin := 80, fPeak := 146520000, iPeak := 10,
            f := 43510000 },
      rssiHistory := zeros128.set 64 RSSI_MAX_VALUE }

/-- Witness for `updateScan_lock_tunes_to_peak` at `lock7`: the tuned
frequency is the held peak's 146525000. -/
theorem updateScan_lock_tunes_to_peak_witness :
    ((UpdateScan 50 lock7).fst.fMeasure = (ScanCompleteStats (Scan 50 lock7)).peak.f ∧
    (UpdateScan 50 lock7).fst.peak.f = (ScanCompleteStats (Scan 50 lock7)).peak.f ∧
    (UpdateScan 50 lock7).fst.isListening = true ∧
    (UpdateScan 50 lock7).snd = true) ∧
    (ScanCompleteStats (Scan 50 lock7)).peak.f = 146525000 :=
  ⟨updateScan_lock_tunes_to_peak 50 lock7 (by decide) (by decide), by decide⟩

/-! Lemmas about the waterfall statistics fold and quantization. -/

theorem wfStatsGo_min_le (l : List Nat) :
    ∀ mn mx vs, (wfStatsGo l mn mx vs).1 ≤ mn := by
  induction l with
  | nil => intro mn _ _; exact le_rfl
  | cons a t ih =>
    intro mn mx vs
    unfold wfStatsGo
    split_ifs <;> exact le_trans (ih _ _ _) (by omega)

theorem wfStatsGo_max_ge (l : List Nat) :
    ∀ mn mx vs, mx ≤ (wfStatsGo l mn mx vs).2.1 := by
  induction l with
  | nil => intro _ mx _; exact le_rfl
  | cons a t ih =>
    intro mn mx vs
    unfold wfStatsGo
    split_ifs <;> exact le_trans (by omega) (ih _ _ _)

theorem wfStatsGo_vs_le (l : List Nat) :
    ∀ mn mx vs, vs ≤ (wfStatsGo l mn mx vs).2.2 := by
  induction l with
  | nil => intro _ _ vs; exact le_rfl
  | cons a t ih =>
    intro mn mx vs
    unfold wfStatsGo
    split_ifs <;> exact le_trans (by omega) (ih _ _ _)

/-- Every valid sample of the analyzed list lies between the computed
minimum and maximum, and makes the valid-sample count positive. -/
theorem wfStatsGo_mem_bounds (l : List Nat) :
    ∀ mn mx vs r, r ∈ l → r ≠ RSSI_MAX_VALUE → r ≠ 0 →
      (wfStatsGo l mn mx vs).1 ≤ r ∧ r ≤ (wfStatsGo l mn mx vs).2.1 ∧
      0 < (wfStatsGo l mn mx vs).2.2 := by
  induction l with
  | nil => intro _ _ _ r hr; cases hr
  | cons a t ih =>
    intro mn mx vs r hr h1 h2
    rcases List.mem_cons.mp hr with heq | hmem
    · subst heq
      unfold wfStatsGo
      rw [if_pos ⟨h1, h2⟩]
      refine ⟨le_trans (wfStatsGo_min_le t _ _ _) (by split_ifs <;> omega),
        le_trans (by split_ifs <;> omega) (wfStatsGo_max_ge t _ _ _),
        lt_of_lt_of_le (Nat.succ_pos vs) (wfStatsGo_vs_le t _ _ _)⟩
    · unfold wfStatsGo
      split_ifs <;> exact ih _ _ _ r hmem h1 h2

/-- Every stored waterfall level is at most 15. -/
theorem wfLevel_le_15 (st : Nat × Nat × Nat) (r : Nat) : wfLevel st r ≤ 15 := by
  unfold wfLevel
  dsimp only
  split_ifs <;> omega

/-- On any bin value taken from the analyzed sweep itself, the code's
quantization (`& 0x0F` masking included) agrees with the claim's formula
`clamp((rssi - sweepMin) * 15 / max(1, sweepMax - sweepMin), 0, 15)` with
the visibility floor. -/
theorem wfLevel_eq_spec (l : List Nat) (r : Nat) (hr : r ∈ l) :
    wfLevel (wfStats l) r = wfLevelSpec (wfStats l) r := by
  by_cases hv : r = RSSI_MAX_VALUE ∨ r = 0
  · unfold wfLevel wfLevelSpec
    rw [if_pos hv, if_pos hv]
  · push_neg at hv
    obtain ⟨h1, h2⟩ := hv
    obtain ⟨hmn, hmx, hvs⟩ := wfStatsGo_mem_bounds l 65535 0 0 r hr h1 h2
    have hmn' : (wfStats l).1 ≤ r := hmn
    have hmx' : r ≤ (wfStats l).2.1 := hmx
    have hvs' : 0 < (wfStats l).2.2 := hvs
    have hrange : (if (wfStats l).2.1 > (wfStats l).1
        then (wfStats l).2.1 - (wfStats l).1 else 1) =
        max 1 ((wfStats l).2.1 - (wfStats l).1) := by
      split_ifs <;> omega
    have hb : 0 < max 1 ((wfStats l).2.1 - (wfStats l).1) := by omega
    have hle : (r - (wfStats l).1) * 15 / max 1 ((wfStats l).2.1 - (wfStats l).1) ≤ 15 := by
      calc (r - (wfStats l).1) * 15 / max 1 ((wfStats l).2.1 - (wfStats l).1)
          ≤ max 1 ((wfStats l).2.1 - (wfStats l).1) * 15 /
              max 1 ((wfStats l).2.1 - (wfStats l).1) :=
            Nat.div_le_div_right (Nat.mul_le_mul_right 15 (by omega))
        _ = 15 := Nat.mul_div_cancel_left 15 hb
    have hkey : ((r - (wfStats l).1) * 15 /
          (if (wfStats l).2.1 > (wfStats l).1 then (wfStats l).2.1 - (wfStats l).1 else 1)) % 16 =
        min ((r - (wfStats l).1) * 15 / max 1 ((wfStats l).2.1 - (wfStats l).1)) 15 := by
      rw [hrange, Nat.mod_eq_of_lt (by omega), Nat.min_eq_left hle]
    have hninv : ¬(r = RSSI_MAX_VALUE ∨ r = 0) := by push_neg; exact ⟨h1, h2⟩
    unfold wfLevel wfLevelSpec
    rw [if_neg hninv, if_pos hvs']
    dsimp only
    rw [hkey, if_neg hninv, if_pos hvs']

/-- `getD` through a `zipWith` at an in-range index. -/
theorem zipWith_getD {α β γ : Type} (f : α → β → γ) (a : List α) (b : List β) (i : Nat)
    (d1 : α) (d2 : β) (d3 : γ) (ha : i < a.length) (hb : i < b.length) :
    (List.zipWith f a b).getD i d3 = f (a.getD i d1) (b.getD i d2) := by
  rw [List.getD_eq_getElem?_getD, List.getD_eq_getElem?_getD, List.getD_eq_getElem?_getD,
    List.getElem?_zipWith, List.getElem?_eq_getElem ha, List.getElem?_eq_getElem hb]
  rfl

theorem UpdateWaterfall_index (s : Spec) :
    (UpdateWaterfall s).waterfallIndex =
      (s.waterfallIndex + 1) % WATERFALL_HISTORY_DEPTH := rfl

/-- The committed push writes the quantized level of every bin's current
RSSI into the new cursor row and leaves every other cell untouched. -/
theorem UpdateWaterfall_cell (s : Spec) (bin d : Nat)
    (hWF : WaterfallWF s) (hbin : bin < SPECTRUM_MAX_STEPS)
    (hd : d < WATERFALL_HISTORY_DEPTH) :
    wfCell (UpdateWaterfall s) bin d =
      (if d = (s.waterfallIndex + 1) % WATERFALL_HISTORY_DEPTH
       then wfLevel (wfStats s.rssiHistory) (s.rssiHistory.getD bin 0)
       else wfCell s bin d) := by
  obtain ⟨hrl, hwl, hrows⟩ := hWF
  unfold wfCell UpdateWaterfall
  dsimp only
  rw [zipWith_getD _ _ _ bin [] 0 [] (by rw [hwl]; exact hbin) (by rw [hrl]; exact hbin)]
  have hrow : (s.waterfallHistory.getD bin []).length = WATERFALL_HISTORY_DEPTH :=
    hrows bin hbin
  by_cases hdw : d = (s.waterfallIndex + 1) % WATERFALL_HISTORY_DEPTH
  · rw [if_pos hdw, hdw, List.getD_eq_getElem?_getD,
      List.getElem?_set_self (by rw [hrow]; exact Nat.mod_lt _ (by decide))]
    rfl
  · rw [if_neg hdw, List.getD_eq_getElem?_getD,
      List.getElem?_set_ne (fun h => hdw h.symm), ← List.getD_eq_getElem?_getD]

theorem UpdateWaterfall_WF (s : Spec) (hWF : WaterfallWF s) :
    WaterfallWF (UpdateWaterfall s) := by
  obtain ⟨hrl, hwl, hrows⟩ := hWF
  refine ⟨hrl, ?_, ?_⟩
  · show (List.zipWith _ _ _).length = _
    rw [List.length_zipWith, hrl, hwl]
    exact Nat.min_self _
  · intro i hi
    show ((List.zipWith _ _ _).getD i []).length = _
    rw [zipWith_getD _ _ _ i [] 0 [] (by rw [hwl]; exact hi) (by rw [hrl]; exact hi),
      List.length_set]
    exact hrows i hi

theorem iterPush_rssiHistory (n : Nat) : ∀ s : Spec, (iterPush n s).rssiHistory = s.rssiHistory := by
  induction n with
  | zero => intro s; rfl
  | succ k ih =>
    intro s
    show (iterPush k (UpdateWaterfall s)).rssiHistory = _
    rw [ih (UpdateWaterfall s)]
    rfl

theorem iterPush_index (n : Nat) : ∀ s : Spec,
    (iterPush (n + 1) s).waterfallIndex =
      (s.waterfallIndex + (n + 1)) % WATERFALL_HISTORY_DEPTH := by
  induction n with
  | zero => intro s; rfl
  | succ k ih =>
    intro s
    show (iterPush (k + 1) (UpdateWaterfall s)).waterfallIndex = _
    rw [ih (UpdateWaterfall s), UpdateWaterfall_index]
    simp only [WATERFALL_HISTORY_DEPTH]
    omega

theorem iterPush_WF (n : Nat) : ∀ s : Spec, WaterfallWF s → WaterfallWF (iterPush n s) := by
  induction n with
  | zero => intro s h; exact h
  | succ k ih => intro s h; exact ih (UpdateWaterfall s) (UpdateWaterfall_WF s h)

/-- After `n+1` pushes of the same sweep buffer, the cell under the final
cursor holds that buffer's quantized level. -/
theorem iterPush_cell_last (n : Nat) : ∀ (s : Spec) (bin : Nat),
    WaterfallWF s → bin < SPECTRUM_MAX_STEPS →
    wfCell (iterPush (n + 1) s) bin
        ((s.waterfallIndex + (n + 1)) % WATERFALL_HISTORY_DEPTH) =
      wfLevel (wfStats s.rssiHistory) (s.rssiHistory.getD bin 0) := by
  induction n with
  | zero =>
    intro s bin hWF hbin
    show wfCell (UpdateWaterfall s) bin _ = _
    rw [UpdateWaterfall_cell s bin _ hWF hbin (Nat.mod_lt _ (by decide)), if_pos rfl]
  | succ k ih =>
    intro s bin hWF hbin
    show wfCell (iterPush (k + 1) (UpdateWaterfall s)) bin _ = _
    have h1 := ih (UpdateWaterfall s) bin (UpdateWaterfall_WF s hWF) hbin
    rw [UpdateWaterfall_rssiHistory, UpdateWaterfall_index] at h1
    have hidx : ((s.waterfallIndex + 1) % WATERFALL_HISTORY_DEPTH + (k + 1))
        % WATERFALL_HISTORY_DEPTH =
        (s.waterfallIndex + (k + 1 + 1)) % WATERFALL_HISTORY_DEPTH := by
      simp only [WATERFALL_HISTORY_DEPTH]
      omega
    rw [hidx] at h1
    exact h1

/-- Reading at age 0 resolves to the current cursor row. -/
theorem wfReadAge_zero (s : Spec) (bin : Nat) :
    wfReadAge s bin 0 =
      wfCell s bin (s.waterfallIndex % WATERFALL_HISTORY_DEPTH) := by
  unfold wfReadAge
  congr 1
  simp only [WATERFALL_HISTORY_DEPTH]
  omega

/-- `C9`: one committed waterfall push stores, for every bin, a quantized
level in `[0, 15]` equal to the claim's formula
`(rssi − sweepMin) · 15 / max(1, sweepMax − sweepMin)` over the sweep's
valid samples with the visibility floor raising levels 1–2 to 3 (empty or
skipped bins store 0); the write goes into the circular cursor's new row —
the cursor advancing by exactly 1 modulo the history depth — with every
other cell untouched (no data movement); and pushing `depth + 1` sweeps of
the buffer wraps the cursor to exactly where 1 push leaves it, so reads at
the same relative age resolve to the same cell (shown for the newest row). -/
theorem updateWaterfall_push_contract (s : Spec) (bin d : Nat)
    (hWF : WaterfallWF s) (hbin : bin < SPECTRUM_MAX_STEPS)
    (hd : d < WATERFALL_HISTORY_DEPTH) :
    (UpdateWaterfall s).waterfallIndex =
      (s.waterfallIndex + 1) % WATERFALL_HISTORY_DEPTH ∧
    wfCell (UpdateWaterfall s) bin d =
      (if d = (s.waterfallIndex + 1) % WATERFALL_HISTORY_DEPTH
       then wfLevel (wfStats s.rssiHistory) (s.rssiHistory.getD bin 0)
       else wfCell s bin d) ∧
    wfLevel (wfStats s.rssiHistory) (s.rssiHistory.getD bin 0) ≤ 15 ∧
    wfLevel (wfStats s.rssiHistory) (s.rssiHistory.getD bin 0) =
      wfLevelSpec (wfStats s.rssiHistory) (s.rssiHistory.getD bin 0) ∧
    (iterPush (WATERFALL_HISTORY_DEPTH + 1) s).waterfallIndex =
      (UpdateWaterfall s).waterfallIndex ∧
    wfReadAge (iterPush (WATERFALL_HISTORY_DEPTH + 1) s) bin 0 =
      wfReadAge (UpdateWaterfall s) bin 0 := by
  have hmem : s.rssiHistory.getD bin 0 ∈ s.rssiHistory := by
    rw [List.getD_eq_getElem?_getD, List.getElem?_eq_getElem (by rw [hWF.1]; exact hbin)]
    exact List.getElem_mem _
  have hidx17 : (iterPush (WATERFALL_HISTORY_DEPTH + 1) s).waterfallIndex =
      (s.waterfallIndex + (WATERFALL_HISTORY_DEPTH + 1)) % WATERFALL_HISTORY_DEPTH :=
    iterPush_index WATERFALL_HISTORY_DEPTH s
  have hwrap : (s.waterfallIndex + (WATERFALL_HISTORY_DEPTH + 1)) % WATERFALL_HISTORY_DEPTH =
      (s.waterfallIndex + 1) % WATERFALL_HISTORY_DEPTH := by
    simp only [WATERFALL_HISTORY_DEPTH]
    omega
  refine ⟨rfl, UpdateWaterfall_cell s bin d hWF hbin hd,
    wfLevel_le_15 _ _, wfLevel_eq_spec s.rssiHistory _ hmem, ?_, ?_⟩
  · rw [hidx17, hwrap, UpdateWaterfall_index]
  · have hmm : ∀ x : Nat,
        x % WATERFALL_HISTORY_DEPTH % WATERFALL_HISTORY_DEPTH =
          x % WATERFALL_HISTORY_DEPTH :=
      fun x => Nat.mod_mod_of_dvd x dvd_rfl
    rw [wfReadAge_zero, wfReadAge_zero, hidx17, UpdateWaterfall_index, hmm, hmm,
      iterPush_cell_last WATERFALL_HISTORY_DEPTH s bin hWF hbin,
      UpdateWaterfall_cell s bin _ hWF hbin (Nat.mod_lt _ (by decide)), if_pos rfl]

/-- Witness for `updateWaterfall_push_contract` at the fresh engine state,
bin 3, depth slot 5. -/
theorem updateWaterfall_push_contract_witness :
    (UpdateWaterfall baseSpec).waterfallIndex =
      (baseSpec.waterfallIndex + 1) % WATERFALL_HISTORY_DEPTH ∧
    wfCell (UpdateWaterfall baseSpec) 3 5 =
      (if 5 = (baseSpec.waterfallIndex + 1) % WATERFALL_HISTORY_DEPTH
       then wfLevel (wfStats baseSpec.rssiHistory) (baseSpec.rssiHistory.getD 3 0)
       else wfCell baseSpec 3 5) ∧
    wfLevel (wfStats baseSpec.rssiHistory) (baseSpec.rssiHistory.getD 3 0) ≤ 15 ∧
    wfLevel (wfStats baseSpec.rssiHistory) (baseSpec.rssiHistory.getD 3 0) =
      wfLevelSpec (wfStats baseSpec.rssiHistory) (baseSpec.rssiHistory.getD 3 0) ∧
    (iterPush (WATERFALL_HISTORY_DEPTH + 1) baseSpec).waterfallIndex =
      (UpdateWaterfall baseSpec).waterfallIndex ∧
    wfReadAge (iterPush (WATERFALL_HISTORY_DEPTH + 1) baseSpec) 3 0 =
      wfReadAge (UpdateWaterfall baseSpec) 3 0 :=
  updateWaterfall_push_contract baseSpec 3 5 (by decide) (by decide) (by decide)

end Spectrum
